import Mathlib

/-!
Verification development for the master/storage-node coordination layer of the
FYP-25-S4-09 distributed file storage system.

The definitions below are a shallow embedding of `src/master-node/server.js`
and `src/storage-node/server.js`.  SQLite tables are modelled as lists of
typed rows; each HTTP handler becomes a pure function from a database state
and a request to a new database state and a response.  Timestamps
(`datetime('now')` / `NOW()`) are threaded as an explicit `now : Nat`
parameter, uuidv4 as an explicit supply `uuids : Nat -> String`, and sha256
as an explicit function parameter, since none of the verified properties
depend on their values.
-/

namespace Shard

/-- JavaScript falsiness test for an optional string field of a JSON body:
`!x` is true when the field is absent or the empty string. -/
def strFalsy : Option String → Bool
  | none => true
  | some s => s == ""

/-- JavaScript `x || d` for an optional string: absent and `""` are falsy. -/
def jsOr (o : Option String) (d : String) : String :=
  match o with
  | none => d
  | some s => if s == "" then d else s

/-- JavaScript `x || d` for an optional number: absent and `0` are falsy. -/
def jsOrNat (o : Option Nat) (d : Nat) : Nat :=
  match o with
  | none => d
  | some n => if n == 0 then d else n

/-- Row of the `node` table (src/master-node/server.js, CREATE TABLE node). -/
structure NodeRow where
  node_id : String
  api_endpoint : String
  node_role : String
  hostname : String
  is_active : Bool
  uptimed_at : Nat
  heartbeat_at : Nat
  latency_ms : Nat
deriving DecidableEq, Repr

/-- Row of the `node_capacity` table. -/
structure NodeCapacityRow where
  node_id : String
  total_bytes : Nat
  used_bytes : Nat
  available_bytes : Nat
  updated_at : Nat
deriving DecidableEq, Repr

/-- Row of the `erasure_profile` table. -/
structure ErasureProfileRow where
  erasure_id : String
  k : Nat
  m : Nat
  bytes : Nat
  notes : String
deriving DecidableEq, Repr

/-- Row of the `file_versions` table (fields used by the core handlers). -/
structure FileVersionRow where
  version_id : String
  file_id : String
  erasure_id : String
  bytes : Nat
  content_hash : String
deriving DecidableEq, Repr

/-- Row of the `file_segments` table. -/
structure FileSegmentRow where
  segment_id : String
  version_id : String
  erasure_id : String
  num_segment : Nat
  bytes : Nat
  content_hash : String
  stored_at : Nat
deriving DecidableEq, Repr

/-- Row of the `file_fragments` table: its columns are
fragment_id, segment_id, num_fragment, bytes, content_hash, stored_at. -/
structure FileFragmentRow where
  fragment_id : String
  segment_id : String
  num_fragment : Nat
  bytes : Nat
  content_hash : String
  stored_at : Nat
deriving DecidableEq, Repr

/-- Row of the `fragment_location` table. -/
structure FragmentLocationRow where
  fragment_id : String
  node_id : String
  fragment_address : String
  stored_at : Nat
  bytes : Nat
  status : String
  last_checked_at : Nat
deriving DecidableEq, Repr

/-- The master node database: the SQLite tables touched by the core
coordination handlers, each as a list of rows in insertion order. -/
structure MasterDB where
  nodes : List NodeRow
  node_capacity : List NodeCapacityRow
  erasure_profile : List ErasureProfileRow
  file_versions : List FileVersionRow
  file_segments : List FileSegmentRow
  file_fragments : List FileFragmentRow
  fragment_location : List FragmentLocationRow
deriving DecidableEq, Repr

/-- The erasure profiles seeded by the master at startup:
LOW (4,2,1024), MEDIUM (6,3,2048), HIGH (8,4,4096). -/
def seededProfiles : List ErasureProfileRow :=
  [ { erasure_id := "LOW", k := 4, m := 2, bytes := 1024, notes := "Low redundancy" },
    { erasure_id := "MEDIUM", k := 6, m := 3, bytes := 2048, notes := "Medium redundancy" },
    { erasure_id := "HIGH", k := 8, m := 4, bytes := 4096, notes := "High redundancy" } ]

/-- `getStorageNodesStmt`:
SELECT node_id, api_endpoint, hostname FROM node
WHERE node_role = STORAGE AND is_active = 1. -/
def getStorageNodes (db : MasterDB) : List NodeRow :=
  db.nodes.filter (fun n => n.node_role == "STORAGE" && n.is_active)

/-- Response of GET /erasure-profiles/:erasureId: either the selected
(k, m, bytes) columns of the matching row, or the 404 error body. -/
inductive ProfileResult where
  | ok (k m bytes : Nat) : ProfileResult
  | notFound (errorMessage : String) : ProfileResult
deriving DecidableEq, Repr

/-- GET /erasure-profiles/:erasureId: `getErasureProfileStmt` is
SELECT k, m, bytes FROM erasure_profile WHERE erasure_id = ?.
SQLite string equality under the default BINARY collation is
case-sensitive, which list-row equality `==` models exactly.  A missing
row yields status 404 with the constant body
`error: Erasure profile not found`. -/
def getErasureProfileEndpoint (db : MasterDB) (erasureId : String) : ProfileResult :=
  match db.erasure_profile.find? (fun p => p.erasure_id == erasureId) with
  | some p => ProfileResult.ok p.k p.m p.bytes
  | none => ProfileResult.notFound "Erasure profile not found"

/-! ### Master POST /fragments (the write-confirmation handler)

The handler prepares
INSERT INTO file_fragments (fragment_id, file_id, node_id, fragment_order,
fragment_size, fragment_hash) VALUES (?, ?, ?, ?, ?, ?)
at request time.  better-sqlite3 validates column names when the statement
is prepared, so we model a prepare-and-run primitive that first checks every
named column against the real schema of `file_fragments` and refuses the
statement when a column does not exist, exactly as SQLite does. -/

/-- A value bound into a SQL statement. -/
inductive SqlValue where
  | str (s : String) : SqlValue
  | num (n : Nat) : SqlValue
  | null : SqlValue
deriving DecidableEq, Repr

/-- The column names of the `file_fragments` table, from its CREATE TABLE. -/
def fileFragmentsColumns : List String :=
  ["fragment_id", "segment_id", "num_fragment", "bytes", "content_hash", "stored_at"]

/-- The column list named by the INSERT inside the master's POST /fragments
handler (src/master-node/server.js lines 665-668). -/
def masterConfirmInsertColumns : List String :=
  ["fragment_id", "file_id", "node_id", "fragment_order", "fragment_size", "fragment_hash"]

/-- Look up the string bound to a column in a zipped column/value list. -/
def lookupStr (assoc : List (String × SqlValue)) (c : String) : Option String :=
  match assoc.find? (fun p => p.1 == c) with
  | some (_, SqlValue.str s) => some s
  | _ => none

/-- Look up the number bound to a column in a zipped column/value list. -/
def lookupNum (assoc : List (String × SqlValue)) (c : String) : Option Nat :=
  match assoc.find? (fun p => p.1 == c) with
  | some (_, SqlValue.num n) => some n
  | _ => none

/-- Prepare and run an INSERT into `file_fragments` with an explicit column
list.  Returns `none` (a thrown exception) when a named column does not
exist in the table (prepare-time validation), when a NOT NULL column is
left without a usable value, or when the PRIMARY KEY / FOREIGN KEY
constraints are violated (`foreign_keys = ON`). -/
def runInsertFileFragments (now : Nat) (db : MasterDB)
    (cols : List String) (vals : List SqlValue) : Option MasterDB :=
  if !(cols.all (fun c => fileFragmentsColumns.contains c)) then
    none
  else
    let assoc := cols.zip vals
    match lookupStr assoc "fragment_id", lookupStr assoc "segment_id",
          lookupNum assoc "num_fragment", lookupNum assoc "bytes",
          lookupStr assoc "content_hash" with
    | some fid, some sid, some nf, some b, some ch =>
        if db.file_fragments.any (fun f => f.fragment_id == fid) then none
        else if db.file_segments.any (fun s => s.segment_id == sid) then
          some { db with file_fragments := db.file_fragments ++
            [{ fragment_id := fid, segment_id := sid, num_fragment := nf,
               bytes := b, content_hash := ch, stored_at := now }] }
        else none
    | _, _, _, _, _ => none

/-- Body of POST /fragments on the master: the handler destructures
fileId, nodeId, fragmentOrder, fragmentSize, fragmentHash and never reads
a caller-supplied fragmentId. -/
structure ConfirmRequest where
  fragmentId : Option String
  fileId : Option String
  nodeId : Option String
  fragmentOrder : Option Nat
  fragmentSize : Option Nat
  fragmentHash : Option String
deriving DecidableEq, Repr

/-- Response of POST /fragments on the master. -/
inductive ConfirmResult where
  | ok (fragmentId : String) : ConfirmResult
  | internalError : ConfirmResult
deriving DecidableEq, Repr

/-- Embed an optional string request field as a SQL binding. -/
def optStr : Option String → SqlValue
  | some s => SqlValue.str s
  | none => SqlValue.null

/-- Embed an optional numeric request field as a SQL binding. -/
def optNum : Option Nat → SqlValue
  | some n => SqlValue.num n
  | none => SqlValue.null

/-- POST /fragments on the master (src/master-node/server.js lines 660-675):
generates a fresh uuid for fragment_id, then prepares and runs the INSERT
with the literal column list `masterConfirmInsertColumns`; any thrown
error is caught and answered with status 500. -/
def postFragmentsMaster (uuid : String) (now : Nat) (db : MasterDB)
    (req : ConfirmRequest) : MasterDB × ConfirmResult :=
  let vals : List SqlValue :=
    [ SqlValue.str uuid, optStr req.fileId, optStr req.nodeId,
      optNum req.fragmentOrder, optNum req.fragmentSize, optStr req.fragmentHash ]
  match runInsertFileFragments now db masterConfirmInsertColumns vals with
  | none => (db, ConfirmResult.internalError)
  | some db1 => (db1, ConfirmResult.ok uuid)

/-- The number of ACTIVE fragment_location rows recorded for a fragment. -/
def countActiveLocations (db : MasterDB) (fragmentId : String) : Nat :=
  (db.fragment_location.filter
    (fun l => l.fragment_id == fragmentId && l.status == "ACTIVE")).length

/-! ### POST /file-fragments (the fragment placement planner)

src/master-node/server.js lines 778-886.  The handler validates the body,
loads the storage nodes, rejects with 503 only when that list is empty,
inserts one `file_segments` row, and then, for each fragment descriptor,
inserts a `file_fragments` row and a `fragment_location` row (status
ACTIVE), assigning nodes round-robin by `i % storageNodes.length`.
Each prepared-statement `run` is its own transaction, so on a thrown
constraint violation the rows already inserted remain (the handler has no
explicit transaction); the model therefore carries the database through
the failure. -/

/-- One entry of the request's `fragment_data` array. -/
structure FragDescriptor where
  num_fragment : Option Nat
  bytes : Option Nat
  content_hash : Option String
deriving DecidableEq, Repr

/-- Body of POST /file-fragments. -/
structure PlanRequest where
  version_id : Option String
  segment_id : Option String
  fragment_data : Option (List FragDescriptor)
  erasure_id : Option String
deriving DecidableEq, Repr

/-- One entry of the `fragments` array in the 200 response. -/
structure PlanEntry where
  fragmentId : String
  nodeId : String
  nodeEndpoint : Option String
  fragmentAddress : String
deriving DecidableEq, Repr

/-- Response of POST /file-fragments. -/
inductive PlanResult where
  | badRequest : PlanResult
  | noStorageNodes : PlanResult
  | internalError : PlanResult
  | ok (fragments : List PlanEntry) : PlanResult
deriving DecidableEq, Repr

/-- Whether the planner answered 200. -/
def PlanResult.isOk : PlanResult → Bool
  | PlanResult.ok _ => true
  | _ => false

/-- The node ids assigned by a 200 planner response, in response order. -/
def PlanResult.nodeIds : PlanResult → List String
  | PlanResult.ok es => es.map (fun e => e.nodeId)
  | _ => []

/-- `insertFileSegmentStmt`: INSERT INTO file_segments, subject to the
segment_id PRIMARY KEY and the version_id / erasure_id FOREIGN KEYs. -/
def insertFileSegment (db : MasterDB) (r : FileSegmentRow) : Option MasterDB :=
  if db.file_segments.any (fun s => s.segment_id == r.segment_id) then none
  else if !(db.file_versions.any (fun v => v.version_id == r.version_id)) then none
  else if !(db.erasure_profile.any (fun p => p.erasure_id == r.erasure_id)) then none
  else some { db with file_segments := db.file_segments ++ [r] }

/-- `insertFileFragmentStmt`: INSERT INTO file_fragments, subject to the
fragment_id PRIMARY KEY and the segment_id FOREIGN KEY. -/
def insertFileFragment (db : MasterDB) (r : FileFragmentRow) : Option MasterDB :=
  if db.file_fragments.any (fun f => f.fragment_id == r.fragment_id) then none
  else if !(db.file_segments.any (fun s => s.segment_id == r.segment_id)) then none
  else some { db with file_fragments := db.file_fragments ++ [r] }

/-- `insertFragmentLocationStmt`: INSERT INTO fragment_location with
status ACTIVE, subject to the fragment_id PRIMARY KEY and the
fragment_id / node_id FOREIGN KEYs. -/
def insertFragmentLocation (db : MasterDB) (r : FragmentLocationRow) : Option MasterDB :=
  if db.fragment_location.any (fun l => l.fragment_id == r.fragment_id) then none
  else if !(db.file_fragments.any (fun f => f.fragment_id == r.fragment_id)) then none
  else if !(db.nodes.any (fun n => n.node_id == r.node_id)) then none
  else some { db with fragment_location := db.fragment_location ++ [r] }

/-- Placeholder row for the (unreachable) out-of-range list access: the
loop only indexes `storageNodes[i % storageNodes.length]` with the list
nonempty, so the JavaScript access never goes out of bounds. -/
def dfltNode : NodeRow :=
  { node_id := "", api_endpoint := "", node_role := "", hostname := "",
    is_active := false, uptimed_at := 0, heartbeat_at := 0, latency_ms := 0 }

/-- The per-fragment loop of POST /file-fragments, processing descriptor
`i` onward.  Fragment ids come from the uuid supply (`uuids (i+1)`; index 0
is reserved for the segment id), the node is `storageNodes[i % length]`,
and each iteration inserts the fragment row then the ACTIVE location row.
A thrown error (missing bytes binding or a constraint violation) aborts
the loop with `none`, keeping the rows inserted so far. -/
def processFragments (uuids : Nat → String) (now : Nat) (nodes : List NodeRow)
    (segId : String) : Nat → List FragDescriptor → MasterDB →
    MasterDB × Option (List PlanEntry)
  | _, [], db => (db, some [])
  | i, f :: rest, db =>
    let fragmentId := uuids (i + 1)
    let nodeId := (nodes.getD (i % nodes.length) dfltNode).node_id
    let fragmentAddress := "/storage/fragments/" ++ fragmentId
    let entry : PlanEntry :=
      { fragmentId := fragmentId, nodeId := nodeId,
        nodeEndpoint := (nodes.find? (fun n => n.node_id == nodeId)).map
          (fun n => n.api_endpoint),
        fragmentAddress := fragmentAddress }
    match f.bytes with
    | none => (db, none)
    | some b =>
      match insertFileFragment db
          { fragment_id := fragmentId, segment_id := segId,
            num_fragment := jsOrNat f.num_fragment i, bytes := b,
            content_hash := jsOr f.content_hash "temp_hash", stored_at := now } with
      | none => (db, none)
      | some db1 =>
        match insertFragmentLocation db1
            { fragment_id := fragmentId, node_id := nodeId,
              fragment_address := fragmentAddress, stored_at := now,
              bytes := b, status := "ACTIVE", last_checked_at := now } with
        | none => (db1, none)
        | some db2 =>
          match processFragments uuids now nodes segId (i + 1) rest db2 with
          | (db3, none) => (db3, none)
          | (db3, some es) => (db3, some (entry :: es))

/-- POST /file-fragments.  `sha256hex` abstracts the segment content hash
(crypto sha256 over the concatenated fragment hashes); no verified
property depends on its value. -/
def postFileFragments (sha256hex : String → String) (uuids : Nat → String)
    (now : Nat) (db : MasterDB) (req : PlanRequest) : MasterDB × PlanResult :=
  if strFalsy req.version_id || req.fragment_data == none then
    (db, PlanResult.badRequest)
  else
    let fragment_data := req.fragment_data.getD []
    let storageNodes := getStorageNodes db
    if storageNodes.length == 0 then
      (db, PlanResult.noStorageNodes)
    else
      let actualSegmentId := jsOr req.segment_id (uuids 0)
      let erasureId := jsOr req.erasure_id "MEDIUM"
      let totalBytes := (fragment_data.map (fun f => f.bytes.getD 0)).sum
      let segHash := sha256hex (String.join (fragment_data.map (fun f => jsOr f.content_hash "")))
      match insertFileSegment db
          { segment_id := actualSegmentId, version_id := req.version_id.getD "",
            erasure_id := erasureId, num_segment := 0, bytes := totalBytes,
            content_hash := segHash, stored_at := now } with
      | none => (db, PlanResult.internalError)
      | some db1 =>
        match processFragments uuids now storageNodes actualSegmentId 0 fragment_data db1 with
        | (db2, none) => (db2, PlanResult.internalError)
        | (db2, some es) => (db2, PlanResult.ok es)

/-! ### POST /register-node -/

/-- Body of POST /register-node. -/
structure RegisterRequest where
  nodeId : Option String
  apiEndpoint : Option String
  nodeRole : Option String
  hostname : Option String
deriving DecidableEq, Repr

/-- Response of POST /register-node. -/
inductive RegisterResult where
  | badRequest : RegisterResult
  | internalError : RegisterResult
  | ok : RegisterResult
deriving DecidableEq, Repr

/-- The roles admitted by the CHECK constraint on `node.node_role`. -/
def allowedNodeRoles : List String := ["STORAGE", "MASTER", "FOLLOWER"]

/-- Default capacity assigned to a storage node at registration (100 GB). -/
def defaultCapacity : Nat := 100 * 1024 * 1024 * 1024

/-- POST /register-node (src/master-node/server.js lines 544-566).
`insertNodeStmt` is INSERT OR REPLACE INTO node (node_id, api_endpoint,
node_role, hostname, is_active, uptimed_at, heartbeat_at) with is_active = 1
and both timestamps set to now; the omitted latency_ms column takes its
schema default 0, and REPLACE deletes any existing row with the same
node_id.  For a STORAGE role, `insertCapacityStmt` then INSERT OR REPLACEs
the node_capacity row with used_bytes = 0 and total = available = 100 GB.
A CHECK-constraint violation on node_role throws and is answered 500. -/
def postRegisterNode (now : Nat) (db : MasterDB) (req : RegisterRequest) :
    MasterDB × RegisterResult :=
  if strFalsy req.nodeId || strFalsy req.apiEndpoint ||
     strFalsy req.nodeRole || strFalsy req.hostname then
    (db, RegisterResult.badRequest)
  else
    let nodeId := req.nodeId.getD ""
    let nodeRole := req.nodeRole.getD ""
    if !(allowedNodeRoles.contains nodeRole) then
      (db, RegisterResult.internalError)
    else
      let row : NodeRow :=
        { node_id := nodeId, api_endpoint := req.apiEndpoint.getD "",
          node_role := nodeRole, hostname := req.hostname.getD "",
          is_active := true, uptimed_at := now, heartbeat_at := now,
          latency_ms := 0 }
      let nodes1 := db.nodes.filter (fun n => !(n.node_id == nodeId)) ++ [row]
      let db1 := { db with nodes := nodes1 }
      if nodeRole == "STORAGE" then
        let cap : NodeCapacityRow :=
          { node_id := nodeId, total_bytes := defaultCapacity, used_bytes := 0,
            available_bytes := defaultCapacity, updated_at := now }
        let caps1 := db1.node_capacity.filter (fun c => !(c.node_id == nodeId)) ++ [cap]
        let db2 := { db1 with node_capacity := caps1 }
        (db2, RegisterResult.ok)
      else
        (db1, RegisterResult.ok)

/-! ### GET /fragments/locations/:versionId (fragment resolution) -/

/-- One row of the resolution query's SELECT list. -/
structure ResolvedRow where
  fragment_id : String
  num_fragment : Nat
  bytes : Nat
  node_id : String
  fragment_address : String
  api_endpoint : String
  hostname : String
deriving DecidableEq, Repr

/-- Build a SELECT-list row from the joined fragment, location and node. -/
def mkResolvedRow (ff : FileFragmentRow) (fl : FragmentLocationRow)
    (n : NodeRow) : ResolvedRow :=
  { fragment_id := ff.fragment_id, num_fragment := ff.num_fragment,
    bytes := ff.bytes, node_id := fl.node_id,
    fragment_address := fl.fragment_address,
    api_endpoint := n.api_endpoint, hostname := n.hostname }

/-- Comparison used by ORDER BY ff.num_fragment. -/
def rowLe (a b : ResolvedRow) : Prop := a.num_fragment ≤ b.num_fragment

instance : DecidableRel rowLe := fun a b => Nat.decLe a.num_fragment b.num_fragment

instance : IsTotal ResolvedRow rowLe := ⟨fun a b => Nat.le_total a.num_fragment b.num_fragment⟩

instance : IsTrans ResolvedRow rowLe := ⟨fun _ _ _ h h' => Nat.le_trans h h'⟩

/-- The unsorted rows of the resolution query: the
file_versions ⋈ file_segments ⋈ file_fragments ⋈ fragment_location ⋈ node
join with WHERE fv.version_id = ? AND fl.status = ACTIVE AND
n.is_active = 1. -/
def resolveRows (db : MasterDB) (versionId : String) : List ResolvedRow :=
  db.file_versions.flatMap (fun fv =>
    if fv.version_id == versionId then
      db.file_segments.flatMap (fun fs =>
        if fs.version_id == fv.version_id then
          db.file_fragments.flatMap (fun ff =>
            if ff.segment_id == fs.segment_id then
              db.fragment_location.flatMap (fun fl =>
                if fl.fragment_id == ff.fragment_id then
                  db.nodes.flatMap (fun n =>
                    if fl.node_id == n.node_id && fl.status == "ACTIVE" && n.is_active then
                      [mkResolvedRow ff fl n]
                    else [])
                else [])
            else [])
        else [])
    else [])

/-- GET /fragments/locations/:versionId (src/master-node/server.js lines
935-956): the join above, ordered by ff.num_fragment ascending. -/
def resolveFragments (db : MasterDB) (versionId : String) : List ResolvedRow :=
  List.insertionSort rowLe (resolveRows db versionId)

/-! ### Eligibility as the specification describes it -/

/-- Modelled from the spec: `EligibleStorageNodes()` as section 4.1 words
it — STORAGE-role nodes after (a) hostname deduplication keeping, per
hostname, only the registration with the most recent heartbeat_at, and
(b) a liveness filter requiring heartbeat_at to lie within the 90-second
window before `now` (times in milliseconds).  This definition follows the
specification text, not the source, and exists solely to compare the
code's eligibility query against the specified one. -/
def specEligibleStorageNodes (now : Nat) (db : MasterDB) : List NodeRow :=
  let storage := db.nodes.filter (fun n => n.node_role == "STORAGE")
  let deduped := storage.filter (fun n =>
    storage.all (fun m => !(m.hostname == n.hostname) || m.heartbeat_at ≤ n.heartbeat_at))
  deduped.filter (fun n => now ≤ n.heartbeat_at + 90000)

/-! ### The storage node and its DELETE /fragments/:fragmentId handler -/

/-- A fragment object in the storage node's local object store, stored
under the key fileId/fragmentOrder_fragmentId.bin. -/
structure StoredObject where
  fileId : String
  fragmentOrder : String
  fragmentId : String
  bytes : Nat
deriving DecidableEq, Repr

/-- The basename of a stored object's file. -/
def StoredObject.basename (o : StoredObject) : String :=
  o.fragmentOrder ++ "_" ++ o.fragmentId ++ ".bin"

/-- JavaScript `s.endsWith(suffix)`, character-wise. -/
def strEndsWith (s suffix : String) : Bool :=
  suffix.data.isSuffixOf s.data

/-- The match used by the storage node's GET and DELETE handlers:
name === fragmentId + .bin, or name ends with _fragmentId.bin. -/
def matchesFragment (fragmentId : String) (o : StoredObject) : Bool :=
  o.basename == fragmentId ++ ".bin" ||
    strEndsWith o.basename ("_" ++ fragmentId ++ ".bin")

/-- A storage node process together with the master it talks to. -/
structure StorageSystem where
  nodeId : String
  objects : List StoredObject
  master : MasterDB
deriving Repr

/-- Response of DELETE /fragments/:fragmentId on the storage node. -/
inductive DeleteResult where
  | notFound : DeleteResult
  | ok (fragmentId : String) : DeleteResult
deriving DecidableEq, Repr

/-- Total capacity a storage node reports (100 GB constant). -/
def storageTotalBytes : Nat := 100 * 1024 * 1024 * 1024

/-- POST /update-capacity on the master: UPDATE node_capacity SET
used_bytes, available_bytes, updated_at WHERE node_id = ?.  The handler
computes usedBytes with JavaScript `usedBytes || 0` (identity on numbers)
and availableBytes with `availableBytes || totalBytes` (so a reported 0
falls back to totalBytes). -/
def postUpdateCapacity (now : Nat) (db : MasterDB) (nodeId : String)
    (totalBytes usedBytes availableBytes : Nat) : MasterDB :=
  let used := usedBytes
  let avail := if availableBytes == 0 then totalBytes else availableBytes
  { db with node_capacity := db.node_capacity.map (fun c =>
      if c.node_id == nodeId then
        { c with used_bytes := used, available_bytes := avail, updated_at := now }
      else c) }

/-- DELETE /fragments/:fragmentId dispatched to the master:
src/master-node/server.js registers no DELETE route for any path
(all its routes are GET or POST), so Express answers 404 Not Found and no
database row is read or written. -/
def masterDeleteFragment (db : MasterDB) (_fragmentId : String) : MasterDB × Nat :=
  (db, 404)

/-- DELETE /fragments/:fragmentId on the storage node
(src/storage-node/server.js lines 285-322): find the local object, unlink
it, notify the master with an HTTP DELETE (any error from that call is
caught and ignored), recompute and report capacity, and answer success. -/
def storageDeleteFragment (now : Nat) (sys : StorageSystem) (fragmentId : String) :
    StorageSystem × DeleteResult :=
  match sys.objects.find? (matchesFragment fragmentId) with
  | none => (sys, DeleteResult.notFound)
  | some _ =>
    let objects1 := sys.objects.eraseP (matchesFragment fragmentId)
    let master1 := (masterDeleteFragment sys.master fragmentId).1
    let used := (objects1.map (fun o => o.bytes)).sum
    let avail := storageTotalBytes - used
    let master2 := postUpdateCapacity now master1 sys.nodeId storageTotalBytes used avail
    ({ sys with objects := objects1, master := master2 }, DeleteResult.ok fragmentId)

/-! ### Concrete fixtures used by the counterexamples and witnesses -/

/-- An active STORAGE node row. -/
def mkStorageNode (id ep host : String) (hb : Nat) : NodeRow :=
  { node_id := id, api_endpoint := ep, node_role := "STORAGE", hostname := host,
    is_active := true, uptimed_at := 0, heartbeat_at := hb, latency_ms := 0 }

/-- The empty master database. -/
def emptyDB : MasterDB :=
  { nodes := [], node_capacity := [], erasure_profile := [],
    file_versions := [], file_segments := [], file_fragments := [],
    fragment_location := [] }

/-- A deterministic uuid supply for concrete runs. -/
def exUuids (i : Nat) : String := "uuid-" ++ toString i

/-- A stand-in for the sha256 hex digest in concrete runs. -/
def exSha (s : String) : String := "sha-" ++ s

/-- A file version row on which segments can be planned. -/
def exVersion (erasureId : String) : FileVersionRow :=
  { version_id := "v1", file_id := "fileA", erasure_id := erasureId,
    bytes := 600, content_hash := "vhash" }

/-- A fragment descriptor with explicit order, bytes and hash. -/
def mkDescriptor (j : Nat) : FragDescriptor :=
  { num_fragment := some j, bytes := some 100, content_hash := some ("c" ++ toString j) }

/-- Fixture for C1: four active storage nodes and a LOW version, so a
six-descriptor LOW plan wraps around the node list. -/
def exDB1 : MasterDB :=
  { emptyDB with
    nodes := [ mkStorageNode "n1" "http://n1:3000" "h1" 0,
               mkStorageNode "n2" "http://n2:3000" "h2" 0,
               mkStorageNode "n3" "http://n3:3000" "h3" 0,
               mkStorageNode "n4" "http://n4:3000" "h4" 0 ],
    erasure_profile := seededProfiles,
    file_versions := [exVersion "LOW"] }

/-- A plan request for version v1 with `count` descriptors. -/
def mkPlanRequest (erasureId : String) (count : Nat) : PlanRequest :=
  { version_id := some "v1", segment_id := some "s1",
    fragment_data := some ((List.range count).map mkDescriptor),
    erasure_id := some erasureId }

/-- Fixture for C3: six active storage nodes and a MEDIUM version. -/
def exDB3 : MasterDB :=
  { emptyDB with
    nodes := [ mkStorageNode "m1" "http://m1:3000" "g1" 0,
               mkStorageNode "m2" "http://m2:3000" "g2" 0,
               mkStorageNode "m3" "http://m3:3000" "g3" 0,
               mkStorageNode "m4" "http://m4:3000" "g4" 0,
               mkStorageNode "m5" "http://m5:3000" "g5" 0,
               mkStorageNode "m6" "http://m6:3000" "g6" 0 ],
    erasure_profile := seededProfiles,
    file_versions := [exVersion "MEDIUM"] }

/-- Fixture for C4: a single storage node whose heartbeat is far older
than the 90-second liveness window but whose is_active flag is still 1. -/
def staleNode : NodeRow := mkStorageNode "stale1" "http://stale1:3000" "hs" 0

/-- Fixture database for C4. -/
def exDB4 : MasterDB :=
  { emptyDB with
    nodes := [staleNode],
    erasure_profile := seededProfiles,
    file_versions := [exVersion "LOW"] }

/-- Fixture for C2: two active storage nodes and a LOW version. -/
def exDB2 : MasterDB :=
  { emptyDB with
    nodes := [ mkStorageNode "p1" "http://p1:3000" "q1" 0,
               mkStorageNode "p2" "http://p2:3000" "q2" 0 ],
    erasure_profile := seededProfiles,
    file_versions := [exVersion "LOW"] }

/-- The master database whose profile catalog is exactly the seed data. -/
def seededDB : MasterDB := { emptyDB with erasure_profile := seededProfiles }

/-- A confirmation request retrying fragment f1, as the storage node sends
after a successful local write. -/
def exConfirmReq : ConfirmRequest :=
  { fragmentId := some "f1", fileId := some "fileA", nodeId := some "sn1",
    fragmentOrder := some 0, fragmentSize := some 100, fragmentHash := some "c0" }

/-- Fixture for C7: the master metadata after two fragments of segment s1
were planned and located on storage node sn1. -/
def exDB7 : MasterDB :=
  { emptyDB with
    nodes := [mkStorageNode "sn1" "http://sn1:3000" "hs1" 0],
    node_capacity := [{ node_id := "sn1", total_bytes := storageTotalBytes,
                        used_bytes := 200, available_bytes := storageTotalBytes - 200,
                        updated_at := 0 }],
    erasure_profile := seededProfiles,
    file_versions := [exVersion "LOW"],
    file_segments := [{ segment_id := "s1", version_id := "v1", erasure_id := "LOW",
                        num_segment := 0, bytes := 200, content_hash := "sh",
                        stored_at := 0 }],
    file_fragments := [ { fragment_id := "f1", segment_id := "s1", num_fragment := 0,
                          bytes := 100, content_hash := "c0", stored_at := 0 },
                        { fragment_id := "f2", segment_id := "s1", num_fragment := 1,
                          bytes := 100, content_hash := "c1", stored_at := 0 } ],
    fragment_location := [ { fragment_id := "f1", node_id := "sn1",
                             fragment_address := "objects/fileA/0_f1.bin", stored_at := 0,
                             bytes := 100, status := "ACTIVE", last_checked_at := 0 },
                           { fragment_id := "f2", node_id := "sn1",
                             fragment_address := "objects/fileA/1_f2.bin", stored_at := 0,
                             bytes := 100, status := "ACTIVE", last_checked_at := 0 } ] }

/-- Fixture for C7: the storage node holding the local object for f1. -/
def exSys7 : StorageSystem :=
  { nodeId := "sn1",
    objects := [{ fileId := "fileA", fragmentOrder := "0", fragmentId := "f1",
                  bytes := 100 }],
    master := exDB7 }

/-! ## Helper lemmas about the planner's inserts -/

theorem insertFileSegment_some {db : MasterDB} {r : FileSegmentRow} {db' : MasterDB}
    (h : insertFileSegment db r = some db') :
    db' = { db with file_segments := db.file_segments ++ [r] } := by
  unfold insertFileSegment at h
  split_ifs at h
  exact (Option.some.inj h).symm

theorem insertFileFragment_some {db : MasterDB} {r : FileFragmentRow} {db' : MasterDB}
    (h : insertFileFragment db r = some db') :
    db' = { db with file_fragments := db.file_fragments ++ [r] } := by
  unfold insertFileFragment at h
  split_ifs at h
  exact (Option.some.inj h).symm

theorem insertFragmentLocation_some {db : MasterDB} {r : FragmentLocationRow} {db' : MasterDB}
    (h : insertFragmentLocation db r = some db') :
    db' = { db with fragment_location := db.fragment_location ++ [r] } := by
  unfold insertFragmentLocation at h
  split_ifs at h
  exact (Option.some.inj h).symm

/-- On success, the per-fragment loop appends exactly one ACTIVE
fragment_location row per descriptor processed. -/
theorem processFragments_locations (uuids : Nat → String) (now : Nat)
    (nodes : List NodeRow) (segId : String) :
    ∀ (ds : List FragDescriptor) (i : Nat) (db db' : MasterDB) (es : List PlanEntry),
      processFragments uuids now nodes segId i ds db = (db', some es) →
      ∃ new : List FragmentLocationRow,
        db'.fragment_location = db.fragment_location ++ new ∧
        new.length = ds.length ∧ ∀ r ∈ new, r.status = "ACTIVE" := by
  intro ds
  induction ds with
  | nil =>
    intro i db db' es h
    simp only [processFragments, Prod.mk.injEq, Option.some.injEq] at h
    obtain ⟨rfl, rfl⟩ := h
    exact ⟨[], by simp, rfl, by simp⟩
  | cons f rest ih =>
    intro i db db' es h
    simp only [processFragments] at h
    split at h
    next => simp at h
    next b hb =>
      split at h
      next => simp at h
      next db1 hif =>
        split at h
        next => simp at h
        next db2 hil =>
          split at h
          next db3 hrec => simp at h
          next db3 es' hrec =>
            simp only [Prod.mk.injEq, Option.some.injEq] at h
            obtain ⟨rfl, rfl⟩ := h
            obtain ⟨new', hfl, hlen, hact⟩ := ih _ _ _ _ hrec
            have h1 := insertFileFragment_some hif
            have h2 := insertFragmentLocation_some hil
            subst h1
            subst h2
            simp only [List.append_assoc, List.singleton_append] at hfl
            refine ⟨_, hfl, ?_, ?_⟩
            · simp [hlen]
            · intro r hr
              rcases List.mem_cons.mp hr with rfl | hr
              · rfl
              · exact hact r hr

/-- On success, the per-fragment loop assigns entry j the node
storageNodes[(i + j) % storageNodes.length], in order. -/
theorem processFragments_nodeIds (uuids : Nat → String) (now : Nat)
    (nodes : List NodeRow) (segId : String) :
    ∀ (ds : List FragDescriptor) (i : Nat) (db db' : MasterDB) (es : List PlanEntry),
      processFragments uuids now nodes segId i ds db = (db', some es) →
      es.map (fun e => e.nodeId) =
        (List.range ds.length).map
          (fun j => (nodes.getD ((i + j) % nodes.length) dfltNode).node_id) := by
  intro ds
  induction ds with
  | nil =>
    intro i db db' es h
    simp only [processFragments, Prod.mk.injEq, Option.some.injEq] at h
    obtain ⟨rfl, rfl⟩ := h
    simp
  | cons f rest ih =>
    intro i db db' es h
    simp only [processFragments] at h
    split at h
    next => simp at h
    next b hb =>
      split at h
      next => simp at h
      next db1 hif =>
        split at h
        next => simp at h
        next db2 hil =>
          split at h
          next db3 hrec => simp at h
          next db3 es' hrec =>
            simp only [Prod.mk.injEq, Option.some.injEq] at h
            obtain ⟨rfl, rfl⟩ := h
            have hih := ih _ _ _ _ hrec
            simp only [List.map_cons, List.length_cons]
            rw [List.range_succ_eq_map, List.map_cons, List.map_map, hih]
            congr 1
            refine List.map_congr_left ?_
            intro a _
            have hia : i + 1 + a = i + Nat.succ a := by omega
            simp [Function.comp_apply, hia]

/-- Destructuring a successful POST /file-fragments call: on a 200
response the handler inserted the segment row and then ran the
per-fragment loop from index 0 over the eligible nodes. -/
theorem postFileFragments_ok {sha : String → String} {uuids : Nat → String}
    {now : Nat} {db db' : MasterDB} {req : PlanRequest} {es : List PlanEntry}
    (h : postFileFragments sha uuids now db req = (db', PlanResult.ok es)) :
    ∃ db1, insertFileSegment db
        { segment_id := jsOr req.segment_id (uuids 0),
          version_id := req.version_id.getD "",
          erasure_id := jsOr req.erasure_id "MEDIUM", num_segment := 0,
          bytes := ((req.fragment_data.getD []).map (fun f => f.bytes.getD 0)).sum,
          content_hash := sha (String.join
            ((req.fragment_data.getD []).map (fun f => jsOr f.content_hash ""))),
          stored_at := now } = some db1 ∧
      processFragments uuids now (getStorageNodes db) (jsOr req.segment_id (uuids 0)) 0
        (req.fragment_data.getD []) db1 = (db', some es) := by
  simp only [postFileFragments] at h
  split at h
  next => simp at h
  next =>
    split at h
    next => simp at h
    next =>
      split at h
      next => simp at h
      next db1 hseg =>
        split at h
        next db2 hproc => simp at h
        next db2 es2 hproc =>
          simp only [Prod.mk.injEq, PlanResult.ok.injEq] at h
          obtain ⟨rfl, rfl⟩ := h
          exact ⟨db1, hseg, hproc⟩

/-! ## Claim theorems -/

/-- C6: the master's POST /fragments handler INSERTs into columns
(file_id, node_id, fragment_order, fragment_size, fragment_hash) that do
not exist in its own file_fragments table, so for every request it
answers 500, writes no fragment or location row, and its outcome is
independent of the caller-supplied fragmentId (the handler generates a
fresh uuid instead): no fragment write can ever be confirmed through this
endpoint. -/
theorem c6_confirm_always_500 :
    (masterConfirmInsertColumns.all (fun c => fileFragmentsColumns.contains c)) = false ∧
    ∀ (uuid : String) (now : Nat) (db : MasterDB) (req : ConfirmRequest),
      postFragmentsMaster uuid now db req = (db, ConfirmResult.internalError) := by
  refine ⟨by decide, ?_⟩
  intro uuid now db req
  rfl

/-- C5 counterexample: confirming fragment f1 twice on a database with no
location rows leaves zero ACTIVE location rows for f1, not the exactly
one row the claim promises after the second confirmation. -/
theorem c5_counterexample :
    countActiveLocations
      (postFragmentsMaster "uuid-2" 2
        (postFragmentsMaster "uuid-1" 1 emptyDB exConfirmReq).1 exConfirmReq).1 "f1" = 0 ∧
    (postFragmentsMaster "uuid-2" 2
      (postFragmentsMaster "uuid-1" 1 emptyDB exConfirmReq).1 exConfirmReq).2 =
      ConfirmResult.internalError := by
  exact ⟨rfl, rfl⟩

/-- C5 amended: the confirmation handler is idempotent only in the
degenerate sense that it never writes anything — every attempt fails with
a 500 internal error caused by the schema mismatch (never a uniqueness
violation), so confirming the same fragmentId twice leaves the database,
and in particular the number of ACTIVE location rows for that fragment,
completely unchanged (zero rows are ever created, rather than exactly
one remaining). -/
theorem c5_confirm_writes_nothing :
    ∀ (u1 u2 : String) (t1 t2 : Nat) (db : MasterDB) (req : ConfirmRequest),
      (postFragmentsMaster u2 t2 (postFragmentsMaster u1 t1 db req).1 req).1 = db ∧
      (postFragmentsMaster u1 t1 db req).2 = ConfirmResult.internalError ∧
      (postFragmentsMaster u2 t2 (postFragmentsMaster u1 t1 db req).1 req).2 =
        ConfirmResult.internalError ∧
      countActiveLocations
          (postFragmentsMaster u2 t2 (postFragmentsMaster u1 t1 db req).1 req).1
          (req.fragmentId.getD "") =
        countActiveLocations db (req.fragmentId.getD "") := by
  intro u1 u2 t1 t2 db req
  exact ⟨rfl, rfl, rfl, rfl⟩

/-- C8 counterexample: on the seeded catalog the lookup of "low" answers
404 while the lookup of "LOW" answers the LOW profile, so Get("low") and
Get("LOW") do not return the identical profile, and the NotFound payload
is the fixed message rather than the catalog of valid ids. -/
theorem c8_counterexample :
    getErasureProfileEndpoint seededDB "low" =
      ProfileResult.notFound "Erasure profile not found" ∧
    getErasureProfileEndpoint seededDB "LOW" = ProfileResult.ok 4 2 1024 ∧
    getErasureProfileEndpoint seededDB "low" ≠ getErasureProfileEndpoint seededDB "LOW" := by
  refine ⟨rfl, rfl, ?_⟩
  decide

/-- C8 amended: erasure-profile lookup is case-sensitive (SQLite BINARY
collation): Get("LOW") returns k=4, m=2 and Get("HIGH") returns k=8, m=4,
while Get("low") and Get("high") fail with NotFound whose payload is the
constant message `Erasure profile not found`, which does not carry the
catalog of valid profile ids. -/
theorem c8_case_sensitive_lookup :
    getErasureProfileEndpoint seededDB "LOW" = ProfileResult.ok 4 2 1024 ∧
    getErasureProfileEndpoint seededDB "HIGH" = ProfileResult.ok 8 4 4096 ∧
    getErasureProfileEndpoint seededDB "low" =
      ProfileResult.notFound "Erasure profile not found" ∧
    getErasureProfileEndpoint seededDB "high" =
      ProfileResult.notFound "Erasure profile not found" := by
  exact ⟨rfl, rfl, rfl, rfl⟩

/-- C7: evaluating the code at the failing input — storage node sn1 holds
the object for fragment f1 whose ACTIVE location is recorded on the
master.  DELETE /fragments/f1 on the storage node removes the local
object and reports success, but the master (which exposes no DELETE
/fragments route at all) never marks the location INACTIVE: both location
rows stay ACTIVE and ResolveFragments still returns f1 together with f2,
contradicting the claimed INACTIVE transition and exclusion. -/
theorem c7_delete_leaves_location_active :
    (storageDeleteFragment 9 exSys7 "f1").2 = DeleteResult.ok "f1" ∧
    (storageDeleteFragment 9 exSys7 "f1").1.objects = [] ∧
    ((storageDeleteFragment 9 exSys7 "f1").1.master.fragment_location.map
      (fun l => (l.fragment_id, l.status))) = [("f1", "ACTIVE"), ("f2", "ACTIVE")] ∧
    ((resolveFragments (storageDeleteFragment 9 exSys7 "f1").1.master "v1").map
      (fun r => r.fragment_id)) = ["f1", "f2"] := by
  decide

/-- C1 counterexample: a successful placement of the 6 = k+m fragment
descriptors of a LOW segment over 4 eligible storage nodes wraps the
round-robin assignment around the node list: nodes n1 and n2 each receive
two fragments of the same segment, so the assigned node ids are not
pairwise distinct. -/
theorem c1_counterexample :
    (postFileFragments exSha exUuids 5 exDB1 (mkPlanRequest "LOW" 6)).2.isOk = true ∧
    (postFileFragments exSha exUuids 5 exDB1 (mkPlanRequest "LOW" 6)).2.nodeIds =
      ["n1", "n2", "n3", "n4", "n1", "n2"] ∧
    ¬ ((postFileFragments exSha exUuids 5 exDB1 (mkPlanRequest "LOW" 6)).2.nodeIds).Nodup := by
  refine ⟨rfl, rfl, ?_⟩
  decide

/-- C3 counterexample: with only 6 eligible storage nodes, a MEDIUM
placement of 9 required fragments does not fail with an InsufficientNodes
error — the call succeeds (the handler rejects only when the node list is
empty). -/
theorem c3_counterexample :
    (getStorageNodes exDB3).length = 6 ∧
    ((mkPlanRequest "MEDIUM" 9).fragment_data.getD []).length = 9 ∧
    (postFileFragments exSha exUuids 5 exDB3 (mkPlanRequest "MEDIUM" 9)).2.isOk = true := by
  exact ⟨rfl, rfl, rfl⟩

/-- C1 amended: POST /file-fragments assigns fragments to eligible nodes
round-robin (fragment i gets node i mod n), so on a successful call the
assigned node ids are pairwise distinct provided the number of fragment
descriptors does not exceed the number of eligible storage nodes (whose
ids are unique, node_id being the table's primary key); when the
descriptor count exceeds the node count the assignment wraps around and
repeats nodes. -/
theorem c1_round_robin_distinct :
    ∀ (sha : String → String) (uuids : Nat → String) (now : Nat) (db : MasterDB)
      (req : PlanRequest),
      (postFileFragments sha uuids now db req).2.isOk = true →
      ((getStorageNodes db).map (fun n => n.node_id)).Nodup →
      (req.fragment_data.getD []).length ≤ (getStorageNodes db).length →
      ((postFileFragments sha uuids now db req).2.nodeIds).Nodup := by
  intro sha uuids now db req hok hnd hle
  rcases hres : postFileFragments sha uuids now db req with ⟨db', r⟩
  rw [hres] at hok
  cases r with
  | badRequest => simp [PlanResult.isOk] at hok
  | noStorageNodes => simp [PlanResult.isOk] at hok
  | internalError => simp [PlanResult.isOk] at hok
  | ok es =>
    obtain ⟨db1, _hseg, hproc⟩ := postFileFragments_ok hres
    have hmap := processFragments_nodeIds uuids now (getStorageNodes db) _ _ _ _ _ _ hproc
    simp only [PlanResult.nodeIds]
    rw [hmap]
    refine (List.nodup_range _).map_on ?_
    intro x hx y hy hxy
    rw [List.mem_range] at hx hy
    have hxn : x < (getStorageNodes db).length := lt_of_lt_of_le hx hle
    have hyn : y < (getStorageNodes db).length := lt_of_lt_of_le hy hle
    simp only [Nat.zero_add, Nat.mod_eq_of_lt hxn, Nat.mod_eq_of_lt hyn,
      List.getD_eq_getElem _ _ hxn, List.getD_eq_getElem _ _ hyn] at hxy
    have hxm : x < ((getStorageNodes db).map (fun n => n.node_id)).length := by
      simpa using hxn
    have hym : y < ((getStorageNodes db).map (fun n => n.node_id)).length := by
      simpa using hyn
    have hmapx : ((getStorageNodes db).map (fun n => n.node_id))[x] =
        ((getStorageNodes db).map (fun n => n.node_id))[y] := by
      simpa [List.getElem_map] using hxy
    exact hnd.getElem_inj_iff.mp hmapx

/-- C1 amended, witness: two descriptors over two distinct eligible nodes
yield a successful plan with distinct assigned node ids. -/
theorem c1_round_robin_distinct_witness :
    (postFileFragments exSha exUuids 5 exDB2 (mkPlanRequest "LOW" 2)).2.isOk = true ∧
    ((getStorageNodes exDB2).map (fun n => n.node_id)).Nodup ∧
    ((mkPlanRequest "LOW" 2).fragment_data.getD []).length ≤ (getStorageNodes exDB2).length ∧
    ((postFileFragments exSha exUuids 5 exDB2 (mkPlanRequest "LOW" 2)).2.nodeIds).Nodup :=
  ⟨rfl, by decide, by decide,
    c1_round_robin_distinct exSha exUuids 5 exDB2 (mkPlanRequest "LOW" 2)
      rfl (by decide) (by decide)⟩

/-- C2 counterexample: a concrete successful placement call creates
fragment_location rows at plan time — two ACTIVE rows appear in a
database that had none, contradicting the claim that the planning
operation creates no fragment_location rows for any input. -/
theorem c2_counterexample :
    exDB2.fragment_location = [] ∧
    ((postFileFragments exSha exUuids 5 exDB2 (mkPlanRequest "LOW" 2)).1.fragment_location.map
      (fun l => (l.fragment_id, l.node_id, l.status))) =
      [("uuid-1", "p1", "ACTIVE"), ("uuid-2", "p2", "ACTIVE")] :=
  ⟨rfl, rfl⟩

/-- C2 amended: POST /file-fragments creates fragment_location rows
speculatively at plan time: every successful call appends exactly one
ACTIVE location row per fragment descriptor, before any storage node has
written (let alone confirmed) a byte. -/
theorem c2_locations_created :
    ∀ (sha : String → String) (uuids : Nat → String) (now : Nat) (db : MasterDB)
      (req : PlanRequest),
      (postFileFragments sha uuids now db req).2.isOk = true →
      ∃ new : List FragmentLocationRow,
        (postFileFragments sha uuids now db req).1.fragment_location =
          db.fragment_location ++ new ∧
        new.length = (req.fragment_data.getD []).length ∧
        ∀ r ∈ new, r.status = "ACTIVE" := by
  intro sha uuids now db req hok
  rcases hres : postFileFragments sha uuids now db req with ⟨db', r⟩
  rw [hres] at hok
  cases r with
  | badRequest => simp [PlanResult.isOk] at hok
  | noStorageNodes => simp [PlanResult.isOk] at hok
  | internalError => simp [PlanResult.isOk] at hok
  | ok es =>
    obtain ⟨db1, hseg, hproc⟩ := postFileFragments_ok hres
    obtain ⟨new, hfl, hlen, hact⟩ :=
      processFragments_locations _ _ _ _ _ _ _ _ _ hproc
    have h1 := insertFileSegment_some hseg
    subst h1
    exact ⟨new, hfl, hlen, hact⟩

/-- C2 amended, witness: the concrete planning call of the counterexample
satisfies the amended statement with two fresh ACTIVE rows. -/
theorem c2_locations_created_witness :
    (postFileFragments exSha exUuids 5 exDB2 (mkPlanRequest "LOW" 2)).2.isOk = true ∧
    ∃ new : List FragmentLocationRow,
      (postFileFragments exSha exUuids 5 exDB2 (mkPlanRequest "LOW" 2)).1.fragment_location =
        exDB2.fragment_location ++ new ∧
      new.length = ((mkPlanRequest "LOW" 2).fragment_data.getD []).length ∧
      ∀ r ∈ new, r.status = "ACTIVE" :=
  ⟨rfl, c2_locations_created exSha exUuids 5 exDB2 (mkPlanRequest "LOW" 2) rfl⟩

/-- C3 amended: the placement call rejects at the node check only when
the eligible-node list is empty, answering 503 with the constant error
`No storage nodes available` (reporting neither the available nor the
required count) and leaving the database untouched; when at least one
node is eligible the call proceeds regardless of how many fragments are
required. -/
theorem c3_rejects_only_zero_nodes :
    ∀ (sha : String → String) (uuids : Nat → String) (now : Nat) (db : MasterDB)
      (req : PlanRequest),
      strFalsy req.version_id = false →
      req.fragment_data ≠ none →
      getStorageNodes db = [] →
      postFileFragments sha uuids now db req = (db, PlanResult.noStorageNodes) := by
  intro sha uuids now db req h1 h2 h3
  have h2' : (req.fragment_data == none) = false := by
    cases hfd : req.fragment_data
    · exact absurd hfd h2
    · rfl
  simp [postFileFragments, h1, h2', h3]

/-- C3 amended, witness: with a seeded catalog but no registered nodes,
the MEDIUM planning request is rejected with the 503 error and the
database is unchanged. -/
theorem c3_rejects_only_zero_nodes_witness :
    strFalsy (mkPlanRequest "MEDIUM" 9).version_id = false ∧
    (mkPlanRequest "MEDIUM" 9).fragment_data ≠ none ∧
    getStorageNodes seededDB = [] ∧
    postFileFragments exSha exUuids 5 seededDB (mkPlanRequest "MEDIUM" 9) =
      (seededDB, PlanResult.noStorageNodes) :=
  ⟨rfl, by decide, rfl,
    c3_rejects_only_zero_nodes exSha exUuids 5 seededDB (mkPlanRequest "MEDIUM" 9)
      rfl (by decide) rfl⟩

/-- C4 amended: the eligibility query selects exactly the nodes with role
STORAGE and is_active = 1; it applies no hostname deduplication and no
heartbeat-recency (liveness-window) filter, so a node with an arbitrarily
stale heartbeat_at remains eligible for new placement as long as its
is_active flag is set. -/
theorem c4_eligibility_ignores_heartbeat :
    ∀ (db : MasterDB) (n : NodeRow),
      n ∈ getStorageNodes db ↔
        n ∈ db.nodes ∧ n.node_role = "STORAGE" ∧ n.is_active = true := by
  intro db n
  simp [getStorageNodes, List.mem_filter, Bool.and_eq_true, beq_iff_eq]

/-- C4 counterexample: a STORAGE node whose heartbeat_at is far older than
the 90-second liveness window but whose is_active flag is still set is
returned by the code's eligibility query, is excluded by the
specification's deduplicate-and-liveness-filter definition, and is indeed
assigned a fragment by a successful placement call. -/
theorem c4_counterexample :
    staleNode ∈ getStorageNodes exDB4 ∧
    staleNode.heartbeat_at + 90000 < 1000000 ∧
    staleNode ∉ specEligibleStorageNodes 1000000 exDB4 ∧
    (postFileFragments exSha exUuids 1000000 exDB4 (mkPlanRequest "LOW" 1)).2.nodeIds =
      ["stale1"] := by
  refine ⟨by decide, by decide, by decide, rfl⟩

/-- C9: GET /fragments/locations/:versionId returns exactly the rows
reachable through the file_versions → file_segments → file_fragments →
fragment_location → node join for the requested version whose location
has status ACTIVE and whose hosting node has is_active set, and the
result is ordered by ascending fragment order (num_fragment). -/
theorem c9_resolve_characterization :
    ∀ (db : MasterDB) (v : String),
      (∀ r : ResolvedRow,
        r ∈ resolveFragments db v ↔
          ∃ fv ∈ db.file_versions, fv.version_id = v ∧
          ∃ fs ∈ db.file_segments, fs.version_id = fv.version_id ∧
          ∃ ff ∈ db.file_fragments, ff.segment_id = fs.segment_id ∧
          ∃ fl ∈ db.fragment_location, fl.fragment_id = ff.fragment_id ∧
          ∃ n ∈ db.nodes, fl.node_id = n.node_id ∧ fl.status = "ACTIVE" ∧
            n.is_active = true ∧ r = mkResolvedRow ff fl n) ∧
      List.Sorted rowLe (resolveFragments db v) := by
  intro db v
  constructor
  · intro r
    simp only [resolveFragments]
    rw [(List.perm_insertionSort rowLe (resolveRows db v)).mem_iff]
    simp only [resolveRows, List.mem_flatMap, List.mem_ite_nil_right, beq_iff_eq,
      Bool.and_eq_true, List.mem_singleton]
    constructor
    · rintro ⟨fv, hfv, h1, fs, hfs, h2, ff, hff, h3, fl, hfl, h4, n, hn, ⟨⟨h5, h6⟩, h7⟩, h8⟩
      exact ⟨fv, hfv, h1, fs, hfs, h2, ff, hff, h3, fl, hfl, h4, n, hn, h5, h6, h7, h8⟩
    · rintro ⟨fv, hfv, h1, fs, hfs, h2, ff, hff, h3, fl, hfl, h4, n, hn, h5, h6, h7, h8⟩
      exact ⟨fv, hfv, h1, fs, hfs, h2, ff, hff, h3, fl, hfl, h4, n, hn, ⟨⟨h5, h6⟩, h7⟩, h8⟩
  · exact List.sorted_insertionSort rowLe (resolveRows db v)

/-- A registration request re-registering node n1 as STORAGE. -/
def exRegisterReq : RegisterRequest :=
  { nodeId := some "n1", apiEndpoint := some "http://n1b:3000",
    nodeRole := some "STORAGE", hostname := some "h1b" }

/-- C10: re-registering an already-registered node replaces its node row
wholesale — after the call the unique node row with that id has
is_active set, uptimed_at and heartbeat_at equal to the current time and
latency_ms back at its schema default 0 — and, the role being STORAGE,
the node_capacity row is likewise replaced with used_bytes = 0 and
available_bytes = total_bytes (the 100 GB default), discarding the
node's previously reported capacity snapshot. -/
theorem c10_reregistration_resets :
    ∀ (now : Nat) (db : MasterDB) (req : RegisterRequest) (old : NodeRow),
      strFalsy req.nodeId = false → strFalsy req.apiEndpoint = false →
      strFalsy req.hostname = false → req.nodeRole = some "STORAGE" →
      old ∈ db.nodes → old.node_id = req.nodeId.getD "" →
      (postRegisterNode now db req).2 = RegisterResult.ok ∧
      ((postRegisterNode now db req).1.nodes.filter
          (fun n => n.node_id == req.nodeId.getD "")) =
        [{ node_id := req.nodeId.getD "", api_endpoint := req.apiEndpoint.getD "",
           node_role := "STORAGE", hostname := req.hostname.getD "",
           is_active := true, uptimed_at := now, heartbeat_at := now,
           latency_ms := 0 }] ∧
      ((postRegisterNode now db req).1.node_capacity.filter
          (fun c => c.node_id == req.nodeId.getD "")) =
        [{ node_id := req.nodeId.getD "", total_bytes := defaultCapacity,
           used_bytes := 0, available_bytes := defaultCapacity, updated_at := now }] := by
  intro now db req old h1 h2 h3 hrole _hold _holdid
  have hrole' : strFalsy req.nodeRole = false := by rw [hrole]; rfl
  have hroleD : req.nodeRole.getD "" = "STORAGE" := by rw [hrole]; rfl
  simp only [postRegisterNode, h1, h2, h3, hrole', hroleD, Bool.or_self, Bool.false_or,
    Bool.or_false, Bool.false_eq_true, if_false, ite_false]
  have hallowed : allowedNodeRoles.contains "STORAGE" = true := by decide
  simp only [hallowed, Bool.not_true, Bool.false_eq_true, if_false, ite_false,
    beq_self_eq_true, if_true, ite_true]
  refine ⟨trivial, ?_, ?_⟩
  · rw [List.filter_append, List.filter_filter]
    have hnil : db.nodes.filter
        (fun n => (n.node_id == req.nodeId.getD "") && !(n.node_id == req.nodeId.getD "")) = [] := by
      refine List.filter_eq_nil_iff.mpr ?_
      intro a _
      simp
    rw [hnil]
    simp
  · rw [List.filter_append, List.filter_filter]
    have hnil : db.node_capacity.filter
        (fun c => (c.node_id == req.nodeId.getD "") && !(c.node_id == req.nodeId.getD "")) = [] := by
      refine List.filter_eq_nil_iff.mpr ?_
      intro a _
      simp
    rw [hnil]
    simp

/-- C10, witness: re-registering node n1 of `exDB1` (heartbeat 0, active)
at time 77 resets its row and capacity snapshot. -/
theorem c10_reregistration_resets_witness :
    strFalsy exRegisterReq.nodeId = false ∧
    strFalsy exRegisterReq.apiEndpoint = false ∧
    strFalsy exRegisterReq.hostname = false ∧
    exRegisterReq.nodeRole = some "STORAGE" ∧
    mkStorageNode "n1" "http://n1:3000" "h1" 0 ∈ exDB1.nodes ∧
    (mkStorageNode "n1" "http://n1:3000" "h1" 0).node_id = exRegisterReq.nodeId.getD "" ∧
    (postRegisterNode 77 exDB1 exRegisterReq).2 = RegisterResult.ok ∧
    ((postRegisterNode 77 exDB1 exRegisterReq).1.nodes.filter
        (fun n => n.node_id == exRegisterReq.nodeId.getD "")) =
      [{ node_id := exRegisterReq.nodeId.getD "",
         api_endpoint := exRegisterReq.apiEndpoint.getD "",
         node_role := "STORAGE", hostname := exRegisterReq.hostname.getD "",
         is_active := true, uptimed_at := 77, heartbeat_at := 77,
         latency_ms := 0 }] ∧
    ((postRegisterNode 77 exDB1 exRegisterReq).1.node_capacity.filter
        (fun c => c.node_id == exRegisterReq.nodeId.getD "")) =
      [{ node_id := exRegisterReq.nodeId.getD "", total_bytes := defaultCapacity,
         used_bytes := 0, available_bytes := defaultCapacity, updated_at := 77 }] := by
  have h := c10_reregistration_resets 77 exDB1 exRegisterReq
    (mkStorageNode "n1" "http://n1:3000" "h1" 0) rfl rfl rfl rfl (by decide) rfl
  exact ⟨rfl, rfl, rfl, rfl, by decide, rfl, h.1, h.2.1, h.2.2⟩

end Shard
